import Mathlib

/-!
Verification development for the product-catalog-service repository.

Python text values are embedded as `List Char` (written `Str` below), so that
the repository's string operations (`lower()`, `strip()`, substring matching
via SQL `ilike`, regular-expression based path normalisation) become
executable Lean functions amenable to proof.  Database tables are embedded as
Lean lists of records; the repository and route functions are translated
statement-by-statement from `src/repositories/*.py` and `src/api/routes/*.py`.
-/

namespace Catalog

/-- Python strings, embedded as lists of characters. -/
abbrev Str := List Char

/-- Python `str.lower()` (ASCII case folding, as used by the repository). -/
def lower (s : Str) : Str := s.map Char.toLower

/-- Python `str.strip()`: remove leading and trailing whitespace. -/
def strip (s : Str) : Str :=
  ((s.dropWhile Char.isWhitespace).reverse.dropWhile Char.isWhitespace).reverse

/-- Substring containment: `pat` occurs contiguously inside `s`. -/
def strContains (s pat : Str) : Bool := decide (pat <:+: s)

/-- SQL `col ILIKE '%pat%'`: case-insensitive substring containment. -/
def ilikeContains (s pat : Str) : Bool := strContains (lower s) (lower pat)

/-- SQL `col ILIKE pat` with no wildcard: case-insensitive equality. -/
def ilikeEq (s pat : Str) : Bool := lower s == lower pat

/-- SQL `col ILIKE 'pat%'`: case-insensitive prefix test. -/
def ilikeStarts (s pat : Str) : Bool := decide (lower pat <+: lower s)

/-- The `categories` table row (src/models/product.py, class Category). -/
structure Category where
  id : Nat
  name : Str
  parent_id : Option Nat
  path : Str
  description : Option Str
  created_at : Nat
  updated_at : Nat
deriving DecidableEq, Repr

/-- The `products` table row (src/models/product.py, class Product).
Prices are exact decimals in the source (`Numeric(10, 2)`); they are embedded
as integers (a fixed scaling), which preserves ordering and equality. -/
structure Product where
  id : Nat
  name : Str
  description : Option Str
  category_id : Nat
  price : Int
  stock_quantity : Nat
  attributes : List (Str × Str)
  search_vector : Option Str
  created_at : Nat
  updated_at : Nat
deriving DecidableEq, Repr

/-- Payload of `CategoryCreate` (src/api/models/product.py). -/
structure CategoryCreate where
  name : Str
  parent_id : Option Nat
  description : Option Str
deriving DecidableEq, Repr

/-- A `CategoryUpdate` payload after the route has dropped `None` fields:
`none` means the field was absent from the update. -/
structure CategoryUpdateData where
  name : Option Str
  parent_id : Option Nat
  description : Option Str
deriving DecidableEq, Repr

/-- True when the filtered update payload carries no field at all. -/
def CategoryUpdateData.isEmpty (u : CategoryUpdateData) : Bool :=
  u.name.isNone && u.parent_id.isNone && u.description.isNone

namespace CategoryRepository

/-- CategoryRepository.get: first row whose id matches. -/
def get (cats : List Category) (id : Nat) : Option Category :=
  cats.find? (fun c => c.id == id)

/-- Error text of the `ValueError` raised when a parent id resolves to no row. -/
def parentNotFoundMsg : Str := "Parent category not found".data

/-- CategoryRepository.create (src/repositories/category.py lines 23-40):
builds the row, derives `path` from the parent when `parent_id` is set,
raises `ValueError` when the parent is missing, otherwise persists.
`newId`/`now` stand for the generated primary key and the clock. -/
def create (cats : List Category) (newId now : Nat) (data : CategoryCreate) :
    Except Str (Category × List Category) :=
  let base : Category :=
    { id := newId, name := data.name, parent_id := data.parent_id, path := []
      description := data.description, created_at := now, updated_at := now }
  match data.parent_id with
  | some pid =>
      match get cats pid with
      | some parent =>
          let cat := { base with path := parent.path ++ '/' :: base.name }
          .ok (cat, cats ++ [cat])
      | none => .error parentNotFoundMsg
  | none =>
      let cat := { base with path := base.name }
      .ok (cat, cats ++ [cat])

/-- CategoryRepository.update (src/repositories/category.py lines 58-82):
loads the row (returning `none` when absent), applies the supplied fields,
and when `name` or `parent_id` was supplied recomputes `path`, re-resolving
the parent against the session (which sees the pending field changes) and
raising `ValueError` when the parent is missing. -/
def update (cats : List Category) (now id : Nat) (kw : CategoryUpdateData) :
    Except Str (Option (Category × List Category)) :=
  match get cats id with
  | none => .ok none
  | some category =>
    let c1 := { category with name := kw.name.getD category.name }
    let c2 := { c1 with parent_id := (kw.parent_id.map some).getD c1.parent_id }
    let c3 := { c2 with description := (kw.description.map some).getD c2.description }
    if kw.name.isSome || kw.parent_id.isSome then
      let pending := cats.map (fun c => if c.id == id then c3 else c)
      match c3.parent_id with
      | some pid =>
          match get pending pid with
          | some parent =>
              let c4 := { c3 with path := parent.path ++ '/' :: c3.name, updated_at := now }
              .ok (some (c4, cats.map (fun c => if c.id == id then c4 else c)))
          | none => .error parentNotFoundMsg
      | none =>
          let c4 := { c3 with path := c3.name, updated_at := now }
          .ok (some (c4, cats.map (fun c => if c.id == id then c4 else c)))
    else
      let c4 := { c3 with updated_at := now }
      .ok (some (c4, cats.map (fun c => if c.id == id then c4 else c)))

end CategoryRepository

/-- PUT /api/v1/categories/{id} (src/api/routes/categories.py, update_category):
400 when the filtered payload is empty, 404 when the category is absent,
400 when the repository raises `ValueError` (missing new parent; the session
is rolled back, so the store is unchanged), 200 otherwise.  The result is the
HTTP status code paired with the resulting store. -/
def update_category (cats : List Category) (now cid : Nat) (payload : CategoryUpdateData) :
    Nat × List Category :=
  if payload.isEmpty then (400, cats)
  else
    match CategoryRepository.update cats now cid payload with
    | .ok none => (404, cats)
    | .ok (some (_, cats')) => (200, cats')
    | .error _ => (400, cats)

/-- Payload of `ProductCreate` (src/api/models/product.py). -/
structure ProductCreate where
  name : Str
  description : Option Str
  category_id : Nat
  price : Int
  stock_quantity : Nat
  attributes : List (Str × Str)
deriving DecidableEq, Repr

/-- A `ProductUpdate` payload after the route has dropped `None` fields:
`none` means the field was absent from the update. -/
structure ProductUpdateData where
  name : Option Str
  description : Option Str
  category_id : Option Nat
  price : Option Int
  stock_quantity : Option Nat
  attributes : Option (List (Str × Str))
deriving DecidableEq, Repr

/-- True when the filtered update payload carries no field at all. -/
def ProductUpdateData.isEmpty (u : ProductUpdateData) : Bool :=
  u.name.isNone && u.description.isNone && u.category_id.isNone &&
  u.price.isNone && u.stock_quantity.isNone && u.attributes.isNone

namespace ProductRepository

/-- ProductRepository.get: first row whose id matches. -/
def get (ps : List Product) (id : Nat) : Option Product :=
  ps.find? (fun p => p.id == id)

/-- The derived search text `f"{name} {description or ''}".lower()`. -/
def searchText (name : Str) (description : Option Str) : Str :=
  lower (name ++ ' ' :: description.getD [])

/-- ProductRepository.create (src/repositories/product.py lines 24-35). -/
def create (ps : List Product) (newId now : Nat) (data : ProductCreate) :
    Product × List Product :=
  let p : Product :=
    { id := newId, name := data.name, description := data.description
      category_id := data.category_id, price := data.price
      stock_quantity := data.stock_quantity, attributes := data.attributes
      search_vector := some (searchText data.name data.description)
      created_at := now, updated_at := now }
  (p, ps ++ [p])

/-- ProductRepository.update (src/repositories/product.py lines 53-71):
loads the row (returning `none` when absent), applies the supplied fields,
and recomputes `search_vector` when `name` or `description` was supplied. -/
def update (ps : List Product) (now id : Nat) (kw : ProductUpdateData) :
    Option (Product × List Product) :=
  match get ps id with
  | none => none
  | some p =>
    let p1 : Product :=
      { p with
        name := kw.name.getD p.name
        description := (kw.description.map some).getD p.description
        category_id := kw.category_id.getD p.category_id
        price := kw.price.getD p.price
        stock_quantity := kw.stock_quantity.getD p.stock_quantity
        attributes := kw.attributes.getD p.attributes }
    let p2 :=
      if kw.name.isSome || kw.description.isSome then
        { p1 with search_vector := some (searchText p1.name p1.description) }
      else p1
    let p3 := { p2 with updated_at := now }
    some (p3, ps.map (fun q => if q.id == id then p3 else q))

/-- The row predicate applied by `ProductRepository.list` / `count`:
each filter is applied only when supplied (price bounds inclusive,
`name` a case-insensitive substring match). -/
def listFilter (category_id : Option Nat) (min_price max_price : Option Int)
    (nameF : Option Str) (p : Product) : Bool :=
  (match category_id with | some cid => p.category_id == cid | none => true) &&
  (match min_price with | some m => decide (m ≤ p.price) | none => true) &&
  (match max_price with | some m => decide (p.price ≤ m) | none => true) &&
  (match nameF with | some n => ilikeContains p.name n | none => true)

/-- Ordering used by `list`: `created_at` descending. -/
def createdDesc (p q : Product) : Prop := q.created_at ≤ p.created_at

instance : DecidableRel createdDesc := fun p q =>
  inferInstanceAs (Decidable (q.created_at ≤ p.created_at))

/-- ProductRepository.list (src/repositories/product.py lines 82-114):
filter, order by `created_at` descending, then apply offset and limit. -/
def list (ps : List Product) (offset limit : Nat) (category_id : Option Nat)
    (min_price max_price : Option Int) (nameF : Option Str) : List Product :=
  ((((ps.filter (listFilter category_id min_price max_price nameF)).insertionSort
      createdDesc).drop offset).take limit)

/-- ProductRepository.count (src/repositories/product.py lines 116-140). -/
def count (ps : List Product) (category_id : Option Nat)
    (min_price max_price : Option Int) (nameF : Option Str) : Nat :=
  (ps.filter (listFilter category_id min_price max_price nameF)).length

/-- The search match predicate (src/repositories/product.py lines 155-161):
`name`, `description` or `search_vector` contains the term, case-insensitively;
a NULL column never matches (SQL three-valued logic). -/
def matchesSearch (term : Str) (p : Product) : Bool :=
  ilikeContains p.name term ||
  (match p.description with | some d => ilikeContains d term | none => false) ||
  (match p.search_vector with | some v => ilikeContains v term | none => false)

/-- Optional category filter shared by `search` and `search_count`. -/
def catOk : Option Nat → Product → Bool
  | some cid, p => p.category_id == cid
  | none, _ => true

/-- Encode a SQL boolean sort key (descending puts TRUE first). -/
def b2n (b : Bool) : Nat := if b then 1 else 0

/-- The four `ORDER BY ... DESC` keys of `search`:
exact name match, name starts with term, name contains term, `created_at`. -/
def searchRank (term : Str) (p : Product) : Nat × Nat × Nat × Nat :=
  (b2n (ilikeEq p.name term), b2n (ilikeStarts p.name term),
   b2n (ilikeContains p.name term), p.created_at)

/-- Lexicographic greater-or-equal on the four sort keys (all descending). -/
def lex4Ge (a b : Nat × Nat × Nat × Nat) : Bool :=
  decide (b.1 < a.1) || (a.1 == b.1 &&
    (decide (b.2.1 < a.2.1) || (a.2.1 == b.2.1 &&
      (decide (b.2.2.1 < a.2.2.1) || (a.2.2.1 == b.2.2.1 &&
        decide (b.2.2.2 ≤ a.2.2.2))))))

/-- Row ordering of `search`: `p` sorts no later than `q`. -/
def searchRel (term : Str) (p q : Product) : Prop :=
  lex4Ge (searchRank term p) (searchRank term q) = true

instance searchRelDecidable (term : Str) : DecidableRel (searchRel term) := fun p q =>
  inferInstanceAs (Decidable (_ = true))

/-- ProductRepository.search (src/repositories/product.py lines 142-181):
lower-case and strip the query, keep the rows matching the predicate and the
optional category filter, order by the four descending relevance keys, then
apply offset and limit. -/
def search (ps : List Product) (query : Str) (offset limit : Nat)
    (category_id : Option Nat) : List Product :=
  let term := strip (lower query)
  let filtered := ps.filter (fun p => matchesSearch term p && catOk category_id p)
  let ordered := filtered.insertionSort (searchRel term)
  (ordered.drop offset).take limit

/-- ProductRepository.search_count (src/repositories/product.py lines 183-203). -/
def search_count (ps : List Product) (query : Str) (category_id : Option Nat) : Nat :=
  let term := strip (lower query)
  (ps.filter (fun p => matchesSearch term p && catOk category_id p)).length

end ProductRepository

/-- Response of GET /api/v1/products. -/
structure ProductListResponse where
  products : List Product
  total : Nat
  offset : Nat
  limit : Nat
deriving DecidableEq, Repr

/-- The inverted-range test of `list_products`
(src/api/routes/products.py lines 119-123). -/
def invertedRange : Option Int → Option Int → Bool
  | some a, some b => decide (b < a)
  | _, _ => false

/-- Error message of the 400 response for an inverted price range. -/
def invertedRangeMsg : Str := "min_price cannot be greater than max_price".data

/-- GET /api/v1/products (src/api/routes/products.py, list_products):
400 when both price bounds are supplied and min exceeds max; otherwise the
filtered page plus the total count.  A `name` filter is forwarded only when
non-empty (Python truthiness of the query string). -/
def list_products (ps : List Product) (category_id : Option Nat)
    (min_price max_price : Option Int) (nameF : Option Str) (offset limit : Nat) :
    Except (Nat × Str) ProductListResponse :=
  if invertedRange min_price max_price then .error (400, invertedRangeMsg)
  else
    let nf := match nameF with
      | some n => if n.isEmpty then none else some n
      | none => none
    .ok { products := ProductRepository.list ps offset limit category_id min_price max_price nf
          total := ProductRepository.count ps category_id min_price max_price nf
          offset := offset, limit := limit }

/-- The concrete error classes of src/core/exceptions.py that
`handle_database_error` can raise. -/
inductive ErrKind
  | conflictError
  | validationError
  | serviceUnavailableError
  | internalServerError
deriving DecidableEq, Repr

/-- An exception as constructed in src/core/exceptions.py: message, the
class's fixed HTTP status, the explicit error code, and the context map. -/
structure AppError where
  kind : ErrKind
  message : Str
  status_code : Nat
  error_code : Str
  context : List (Str × Str)
deriving DecidableEq, Repr

/-- handle_database_error (src/core/error_utils.py lines 82-114), embedded as
a function from the exception's text and type name to the raised error. -/
def handle_database_error (excMessage excType : Str) : AppError :=
  let m := lower excMessage
  if strContains m ("duplicate".data) || strContains m ("unique constraint".data) then
    { kind := .conflictError, message := "Resource already exists".data
      status_code := 409, error_code := "DUPLICATE_RESOURCE".data, context := [] }
  else if strContains m ("foreign key".data) then
    { kind := .validationError, message := "Referenced resource does not exist".data
      status_code := 422, error_code := "INVALID_REFERENCE".data, context := [] }
  else if strContains m ("connection".data) || strContains m ("timeout".data) then
    { kind := .serviceUnavailableError, message := "Database connection error".data
      status_code := 503, error_code := "DATABASE_UNAVAILABLE".data, context := [] }
  else
    { kind := .internalServerError, message := "Database operation failed".data
      status_code := 500, error_code := "DATABASE_ERROR".data
      context := [("original_error".data, excType)] }

/-- Values a Python attribute read on a Product entity can produce. -/
inductive PyVal
  | pyNat (n : Nat)
  | pyInt (i : Int)
  | pyStr (s : Str)
  | pyOptStr (o : Option Str)
  | pyDict (d : List (Str × Str))
deriving DecidableEq, Repr

/-- Python attribute access on the mapped Product entity: the entity exposes
exactly the columns declared in src/models/product.py (class Product); any
other name raises `AttributeError`, embedded as `none`. -/
def Product.getattrVal (p : Product) (attr : Str) : Option PyVal :=
  if attr = "id".data then some (.pyNat p.id)
  else if attr = "name".data then some (.pyStr p.name)
  else if attr = "description".data then some (.pyOptStr p.description)
  else if attr = "category_id".data then some (.pyNat p.category_id)
  else if attr = "price".data then some (.pyInt p.price)
  else if attr = "stock_quantity".data then some (.pyNat p.stock_quantity)
  else if attr = "attributes".data then some (.pyDict p.attributes)
  else if attr = "search_vector".data then some (.pyOptStr p.search_vector)
  else if attr = "created_at".data then some (.pyNat p.created_at)
  else if attr = "updated_at".data then some (.pyNat p.updated_at)
  else none

/-- Observable outcome of POST /api/v1/products: the HTTP status, the stored
rows, the argument tuples `(entity, sku value, is_active value)` of every
`publish_product_created` call that was actually reached, and whether the
event-failure warning was logged. -/
structure CreateProductResult where
  status : Nat
  store : List Product
  publishedCreated : List (Product × PyVal × PyVal)
  eventWarningLogged : Bool
deriving DecidableEq, Repr

/-- POST /api/v1/products (src/api/routes/products.py, create_product):
persists the product; when events are enabled it evaluates the publish call's
arguments — including `product.sku` and `product.is_active` — inside a
`try/except Exception` block that logs any failure and never fails the
request; the response is 201 either way. -/
def create_product (events_enabled : Bool) (ps : List Product) (newId now : Nat)
    (data : ProductCreate) : CreateProductResult :=
  let (product, ps') := ProductRepository.create ps newId now data
  if events_enabled then
    match product.getattrVal ("sku".data), product.getattrVal ("is_active".data) with
    | some skuV, some activeV =>
        { status := 201, store := ps'
          publishedCreated := [(product, skuV, activeV)], eventWarningLogged := false }
    | _, _ =>
        { status := 201, store := ps'
          publishedCreated := [], eventWarningLogged := true }
  else
    { status := 201, store := ps', publishedCreated := [], eventWarningLogged := false }

/-- Decidable equality for route results embedded as `Except`. -/
instance exceptDecEq {ε α : Type} [DecidableEq ε] [DecidableEq α] : DecidableEq (Except ε α)
  | .error a, .error b =>
    if h : a = b then .isTrue (by rw [h]) else .isFalse (by intro he; cases he; exact h rfl)
  | .error _, .ok _ => .isFalse (by intro h; cases h)
  | .ok _, .error _ => .isFalse (by intro h; cases h)
  | .ok a, .ok b =>
    if h : a = b then .isTrue (by rw [h]) else .isFalse (by intro he; cases he; exact h rfl)

/-- Hexadecimal digit as matched by `[a-f0-9]` with `re.IGNORECASE`. -/
def isHexChar (c : Char) : Bool :=
  c.isDigit || ('a' ≤ c && c ≤ 'f') || ('A' ≤ c && c ≤ 'F')

/-- Consume exactly `n` hex characters, returning the remainder. -/
def takeHex : Nat → Str → Option Str
  | 0, s => some s
  | _ + 1, [] => none
  | n + 1, c :: s => if isHexChar c then takeHex n s else none

/-- Consume `-?[a-f0-9]{n}` (the greedy optional hyphen of the UUID pattern;
when the hyphen is present the following hex group must match, since
backtracking to the no-hyphen branch immediately fails on the hyphen). -/
def dashThenHex (n : Nat) (s : Str) : Option Str :=
  if s.head? = some '-' then takeHex n s.tail else takeHex n s

/-- Match the UUID body `[a-f0-9]{8}-?[a-f0-9]{4}-?[a-f0-9]{4}-?[a-f0-9]{4}-?[a-f0-9]{12}`
(src/api/middleware/metrics.py line 84), returning the rest of the input. -/
def matchUuidBody (s : Str) : Option Str :=
  (takeHex 8 s).bind (fun s1 =>
    (dashThenHex 4 s1).bind (fun s2 =>
      (dashThenHex 4 s2).bind (fun s3 =>
        (dashThenHex 4 s3).bind (fun s4 =>
          dashThenHex 12 s4))))

/-- The replacement text `{id}` inserted after the leading slash. -/
def idTok : Str := "{id}".data

theorem takeHex_length : ∀ n s t, takeHex n s = some t → t.length + n = s.length := by
  intro n
  induction n with
  | zero => intro s t h; simp [takeHex] at h; simp [h]
  | succ k ih =>
    intro s t h
    match s with
    | [] => simp [takeHex] at h
    | c :: s' =>
      simp only [takeHex] at h
      by_cases hc : isHexChar c = true
      · simp [hc] at h
        have := ih s' t h
        simp [List.length_cons]
        omega
      · simp [hc] at h

theorem dashThenHex_length : ∀ n s t, dashThenHex n s = some t → t.length + n ≤ s.length := by
  intro n s t h
  rw [dashThenHex] at h
  by_cases hd : s.head? = some '-'
  · simp only [hd, if_pos rfl] at h
    have := takeHex_length n s.tail t h
    have ht : s.tail.length ≤ s.length := by
      cases s <;> simp [List.length_cons]
    omega
  · rw [if_neg hd] at h
    have := takeHex_length n s t h
    omega

theorem matchUuidBody_length (s t : Str) (h : matchUuidBody s = some t) :
    t.length + 32 ≤ s.length := by
  simp only [matchUuidBody, Option.bind_eq_some] at h
  obtain ⟨s1, h1, s2, h2, s3, h3, s4, h4, h5⟩ := h
  have e1 := takeHex_length 8 s s1 h1
  have e2 := dashThenHex_length 4 s1 s2 h2
  have e3 := dashThenHex_length 4 s2 s3 h3
  have e4 := dashThenHex_length 4 s3 s4 h4
  have e5 := dashThenHex_length 12 s4 t h5
  omega

/-- One pass of `re.sub` for the UUID pattern, with explicit fuel so the
recursion is structural (every step consumes at least one character, so any
fuel of at least the input length computes the scan): scan left to right,
replace each match (which always begins with a slash) and resume after it. -/
def uuidSubF : Nat → Str → Str
  | 0, s => s
  | _ + 1, [] => []
  | fuel + 1, c :: rest =>
    if c = '/' then
      match matchUuidBody rest with
      | some rest' => '/' :: idTok ++ uuidSubF fuel rest'
      | none => '/' :: uuidSubF fuel rest
    else c :: uuidSubF fuel rest

/-- The UUID substitution pass of `_get_endpoint_label`. -/
def uuidSub (s : Str) : Str := uuidSubF s.length s

/-- One pass of `re.sub` for `/\d+`, with the same fuel discipline: a slash
followed by at least one digit consumes the maximal digit run and is
replaced; scanning resumes after it. -/
def numSubF : Nat → Str → Str
  | 0, s => s
  | _ + 1, [] => []
  | fuel + 1, c :: rest =>
    if c = '/' then
      match rest with
      | [] => ['/']
      | d :: _ =>
        if d.isDigit then '/' :: idTok ++ numSubF fuel (rest.dropWhile Char.isDigit)
        else '/' :: numSubF fuel rest
    else c :: numSubF fuel rest

/-- The numeric substitution pass of `_get_endpoint_label`. -/
def numSub (s : Str) : Str := numSubF s.length s

/-- HTTPMetricsMiddleware._get_endpoint_label, fallback branch
(src/api/middleware/metrics.py lines 76-97): UUID substitution, then numeric
substitution, then truncation of results longer than 100 characters. -/
def get_endpoint_label (path : Str) : Str :=
  let p1 := uuidSub path
  let p2 := numSub p1
  if p2.length > 100 then p2.take 100 ++ "...".data else p2

/-- Modelled from the claim's wording, for comparison with the source: split
the path into slash-separated segments, replace each segment that is
UUID-shaped with `{id}`, then each purely numeric segment with `{id}`, join,
and truncate the same way. -/
def endpointLabelSegmentwise (path : Str) : Str :=
  let segs := path.splitOn '/'
  let segs1 := segs.map (fun s => if matchUuidBody s = some [] then idTok else s)
  let segs2 := segs1.map (fun s => if s ≠ [] && s.all Char.isDigit then idTok else s)
  let joined := (segs2.intersperse ['/']).flatten
  if joined.length > 100 then joined.take 100 ++ "...".data else joined

/-- Concrete root category used by the closed witness theorems. -/
def catW1 : Category :=
  { id := 1, name := "Electronics".data, parent_id := none, path := "Electronics".data
    description := none, created_at := 0, updated_at := 0 }

/-- Concrete child category used by the closed witness theorems. -/
def catW2 : Category :=
  { id := 2, name := "Smartphones".data, parent_id := some 1
    path := "Electronics/Smartphones".data, description := none
    created_at := 0, updated_at := 0 }

/-- The root category after the rename performed in the C7 witness. -/
def catW1g : Category :=
  { catW1 with name := "Gadgets".data, path := "Gadgets".data, updated_at := 5 }

/-- Concrete product rows used by the closed witness theorems. -/
def prodW (i : Nat) (n : Str) (pr : Int) (t : Nat) : Product :=
  { id := i, name := n, description := some ("desc".data), category_id := 1, price := pr
    stock_quantity := 0, attributes := []
    search_vector := some (ProductRepository.searchText n (some ("desc".data)))
    created_at := t, updated_at := t }

/-- C1: on category create, an absent `parent_id` yields `path = name`; a
`parent_id` resolving to an existing category yields
`path = parent.path ++ "/" ++ name`; a `parent_id` resolving to no category
makes the create fail with the parent-not-found error, so no category is
persisted. -/
theorem categoryCreate_path (cats : List Category) (newId now : Nat) (data : CategoryCreate) :
    (data.parent_id = none →
      ∃ c cs, CategoryRepository.create cats newId now data = .ok (c, cs) ∧
        c.name = data.name ∧ c.parent_id = none ∧ c.path = data.name ∧ cs = cats ++ [c]) ∧
    (∀ pid parent, data.parent_id = some pid →
      CategoryRepository.get cats pid = some parent →
      ∃ c cs, CategoryRepository.create cats newId now data = .ok (c, cs) ∧
        c.name = data.name ∧ c.parent_id = some pid ∧
        c.path = parent.path ++ '/' :: data.name ∧ cs = cats ++ [c]) ∧
    (∀ pid, data.parent_id = some pid → CategoryRepository.get cats pid = none →
      CategoryRepository.create cats newId now data = .error CategoryRepository.parentNotFoundMsg) := by
  refine ⟨?_, ?_, ?_⟩
  · intro h
    refine ⟨{ id := newId, name := data.name, parent_id := none, path := data.name
              description := data.description, created_at := now, updated_at := now }, _,
            ?_, rfl, rfl, rfl, rfl⟩
    simp [CategoryRepository.create, h]
  · intro pid parent hp hg
    refine ⟨{ id := newId, name := data.name, parent_id := some pid
              path := parent.path ++ '/' :: data.name
              description := data.description, created_at := now, updated_at := now }, _,
            ?_, rfl, rfl, rfl, rfl⟩
    simp [CategoryRepository.create, hp, hg]
  · intro pid hp hg
    simp [CategoryRepository.create, hp, hg]

/-- Witness for C1 at concrete inputs: creating "Smartphones" under a missing
parent id fails with the parent-not-found error. -/
theorem categoryCreate_path_witness :
    CategoryRepository.create [catW1] 2 0
      { name := "Smartphones".data, parent_id := some 9, description := none } =
      .error CategoryRepository.parentNotFoundMsg :=
  (categoryCreate_path [catW1] 2 0
    { name := "Smartphones".data, parent_id := some 9, description := none }).2.2 9 rfl
    (by decide)

/-- The store produced by a successful category update replaces exactly the
row with the updated id. -/
theorem categoryUpdate_store_shape (cats : List Category) (now id : Nat)
    (kw : CategoryUpdateData) (c' : Category) (cats' : List Category)
    (h : CategoryRepository.update cats now id kw = .ok (some (c', cats'))) :
    cats' = cats.map (fun c => if c.id == id then c' else c) := by
  unfold CategoryRepository.update at h
  cases hget : CategoryRepository.get cats id with
  | none => rw [hget] at h; simp at h
  | some category =>
    rw [hget] at h
    simp only at h
    split at h
    · split at h
      · split at h
        · simp only [Except.ok.injEq, Option.some.injEq, Prod.mk.injEq] at h
          obtain ⟨h1, h2⟩ := h
          subst h1; subst h2
          rfl
        · simp at h
      · simp only [Except.ok.injEq, Option.some.injEq, Prod.mk.injEq] at h
        obtain ⟨h1, h2⟩ := h
        subst h1; subst h2
        rfl
    · simp only [Except.ok.injEq, Option.some.injEq, Prod.mk.injEq] at h
      obtain ⟨h1, h2⟩ := h
      subst h1; subst h2
      rfl

/-- C7: a category update that changes `name` or `parent_id` recomputes only
that category's own `path`; every other stored category — in particular every
descendant of the updated one — is kept unchanged, its `path` value included. -/
theorem categoryUpdate_no_cascade (cats : List Category) (now id : Nat)
    (kw : CategoryUpdateData) (c' : Category) (cats' : List Category) :
    (kw.name.isSome || kw.parent_id.isSome) = true →
    CategoryRepository.update cats now id kw = .ok (some (c', cats')) →
    ∀ d ∈ cats, d.id ≠ id → d ∈ cats' := by
  intro _ h d hd hne
  rw [categoryUpdate_store_shape cats now id kw c' cats' h]
  have : (if d.id == id then c' else d) = d := by
    simp [beq_eq_false_iff_ne.mpr hne]
  exact this ▸ List.mem_map_of_mem _ hd

/-- Witness for C7 at concrete inputs: renaming the root "Electronics" leaves
the stored child row (and hence its path "Electronics/Smartphones") unchanged. -/
theorem categoryUpdate_no_cascade_witness :
    catW2 ∈ ([catW1g, catW2] : List Category) :=
  categoryUpdate_no_cascade [catW1, catW2] 5 1
    { name := some ("Gadgets".data), parent_id := none, description := none } catW1g
    [catW1g, catW2] (by decide) (by decide) catW2 (by decide) (by decide)

/-- A category update whose payload names a parent id matching no stored
category raises the parent-not-found `ValueError` in the repository. -/
theorem categoryUpdate_parent_missing (cats : List Category) (now cid pid : Nat)
    (kw : CategoryUpdateData) (c : Category)
    (hget : CategoryRepository.get cats cid = some c)
    (hkw : kw.parent_id = some pid)
    (hn : CategoryRepository.get cats pid = none) :
    CategoryRepository.update cats now cid kw = .error CategoryRepository.parentNotFoundMsg := by
  have hget' : cats.find? (fun c0 => c0.id == cid) = some c := hget
  have hn' : cats.find? (fun c0 => c0.id == pid) = none := hn
  have hcid : c.id = cid := by
    have := List.find?_some hget'
    simpa using this
  have hcidpid : ¬ cid = pid := by
    intro he
    have hmemc := List.mem_of_find?_eq_some hget'
    have := List.find?_eq_none.mp hn' c hmemc
    simp [hcid, he] at this
  unfold CategoryRepository.update
  rw [hget]
  simp only [hkw, Option.map_some', Option.getD_some, Option.isSome_some, Bool.or_true, if_true]
  split
  · rename_i parent hp
    exfalso
    have hmem := List.mem_of_find?_eq_some hp
    have hpid := List.find?_some hp
    obtain ⟨d, hd, hfd⟩ := List.mem_map.mp hmem
    have hdn : ¬ (d.id == pid) = true := List.find?_eq_none.mp hn' d hd
    by_cases hdc : (d.id == cid) = true
    · rw [if_pos hdc] at hfd
      rw [← hfd] at hpid
      simp only [beq_iff_eq] at hpid
      exact hcidpid (by rw [← hcid]; exact hpid)
    · rw [if_neg hdc] at hfd
      rw [← hfd] at hpid
      exact hdn hpid
  · rfl

/-- C3 counterexample: updating the stored root category to point at the
nonexistent parent id 2 answers 400, not the claimed 404. -/
theorem updateCategory_parentMissing_cex :
    (update_category [catW1] 5 1
      { name := none, parent_id := some 2, description := none }).1 = 400 ∧
    (update_category [catW1] 5 1
      { name := none, parent_id := some 2, description := none }).1 ≠ 404 := by
  decide

/-- C3 amended: a PUT category update whose non-empty payload sets `parent_id`
to an id matching no stored category answers 400 (the repository `ValueError`
is mapped to BAD_REQUEST by the route, unlike create where it maps to 404),
and the store is left unchanged. -/
theorem updateCategory_parentMissing_status (cats : List Category) (now cid pid : Nat)
    (payload : CategoryUpdateData) :
    payload.isEmpty = false →
    payload.parent_id = some pid →
    (CategoryRepository.get cats cid).isSome = true →
    CategoryRepository.get cats pid = none →
    update_category cats now cid payload = (400, cats) := by
  intro hemp hpar hsome hn
  obtain ⟨c, hc⟩ := Option.isSome_iff_exists.mp hsome
  unfold update_category
  rw [if_neg (by simp [hemp])]
  rw [categoryUpdate_parent_missing cats now cid pid payload c hc hpar hn]

/-- Witness for the amended C3 at concrete inputs: pointing the stored root
category at missing parent id 9 answers 400 with the store unchanged. -/
theorem updateCategory_parentMissing_status_witness :
    update_category [catW1] 5 1
      { name := none, parent_id := some 9, description := none } = (400, [catW1]) :=
  updateCategory_parentMissing_status [catW1] 5 1 9
    { name := none, parent_id := some 9, description := none }
    (by decide) rfl (by decide) (by decide)

/-- C2: a partial update with at least one supplied field changes only the
supplied fields: every omitted payload field keeps its prior stored value, for
products and for categories alike (the derived `search_vector`/`path` and the
refreshed `updated_at` are the documented exceptions and are not listed). -/
theorem partialUpdate_frame :
    (∀ (ps : List Product) (now id : Nat) (kw : ProductUpdateData) (p p' : Product)
       (ps' : List Product),
      kw.isEmpty = false →
      ProductRepository.get ps id = some p →
      ProductRepository.update ps now id kw = some (p', ps') →
      (kw.name = none → p'.name = p.name) ∧
      (kw.description = none → p'.description = p.description) ∧
      (kw.category_id = none → p'.category_id = p.category_id) ∧
      (kw.price = none → p'.price = p.price) ∧
      (kw.stock_quantity = none → p'.stock_quantity = p.stock_quantity) ∧
      (kw.attributes = none → p'.attributes = p.attributes) ∧
      p'.id = p.id ∧ p'.created_at = p.created_at) ∧
    (∀ (cats : List Category) (now id : Nat) (ckw : CategoryUpdateData) (c c' : Category)
       (cats' : List Category),
      ckw.isEmpty = false →
      CategoryRepository.get cats id = some c →
      CategoryRepository.update cats now id ckw = .ok (some (c', cats')) →
      (ckw.name = none → c'.name = c.name) ∧
      (ckw.parent_id = none → c'.parent_id = c.parent_id) ∧
      (ckw.description = none → c'.description = c.description) ∧
      c'.id = c.id ∧ c'.created_at = c.created_at) := by
  constructor
  · intro ps now id kw p p' ps' _ hget h
    unfold ProductRepository.update at h
    rw [hget] at h
    simp only at h
    split at h <;>
    · simp only [Option.some.injEq, Prod.mk.injEq] at h
      obtain ⟨h1, h2⟩ := h
      subst h1
      refine ⟨?_, ?_, ?_, ?_, ?_, ?_, rfl, rfl⟩ <;> (intro hx; simp [hx])
  · intro cats now id ckw c c' cats' _ hget h
    unfold CategoryRepository.update at h
    rw [hget] at h
    simp only at h
    split at h
    · split at h
      · split at h
        · simp only [Except.ok.injEq, Option.some.injEq, Prod.mk.injEq] at h
          obtain ⟨h1, h2⟩ := h
          subst h1
          refine ⟨?_, ?_, ?_, rfl, rfl⟩ <;> (intro hx; simp [hx])
        · simp at h
      · simp only [Except.ok.injEq, Option.some.injEq, Prod.mk.injEq] at h
        obtain ⟨h1, h2⟩ := h
        subst h1
        refine ⟨?_, ?_, ?_, rfl, rfl⟩ <;> (intro hx; simp [hx])
    · simp only [Except.ok.injEq, Option.some.injEq, Prod.mk.injEq] at h
      obtain ⟨h1, h2⟩ := h
      subst h1
      refine ⟨?_, ?_, ?_, rfl, rfl⟩ <;> (intro hx; simp [hx])

/-- Witness for C2 at concrete inputs: updating only the price of a stored
product keeps its name, description, category, stock, and attributes. -/
theorem partialUpdate_frame_witness :
    (prodW 1 ("Widget".data) 999 0).name = (prodW 1 ("Widget".data) 500 0).name ∧
    (prodW 1 ("Widget".data) 999 0).description = (prodW 1 ("Widget".data) 500 0).description ∧
    (prodW 1 ("Widget".data) 999 0).category_id = (prodW 1 ("Widget".data) 500 0).category_id ∧
    (prodW 1 ("Widget".data) 999 0).stock_quantity = (prodW 1 ("Widget".data) 500 0).stock_quantity ∧
    (prodW 1 ("Widget".data) 999 0).attributes = (prodW 1 ("Widget".data) 500 0).attributes := by
  have h := partialUpdate_frame.1 [prodW 1 ("Widget".data) 500 0] 3 1
    { name := none, description := none, category_id := none, price := some 999
      stock_quantity := none, attributes := none }
    (prodW 1 ("Widget".data) 500 0)
    { prodW 1 ("Widget".data) 500 0 with price := 999, updated_at := 3 }
    [{ prodW 1 ("Widget".data) 500 0 with price := 999, updated_at := 3 }]
    (by decide) (by decide) (by decide)
  exact ⟨h.1 rfl, h.2.1 rfl, h.2.2.1 rfl, h.2.2.2.2.1 rfl, h.2.2.2.2.2.1 rfl⟩

/-- C5: `handle_database_error` classifies by the lowercase exception text:
duplicate/unique-constraint text raises ConflictError ("Resource already
exists", DUPLICATE_RESOURCE); otherwise foreign-key text raises
ValidationError ("Referenced resource does not exist", INVALID_REFERENCE);
otherwise connection/timeout text raises ServiceUnavailableError ("Database
connection error", DATABASE_UNAVAILABLE); otherwise InternalServerError
("Database operation failed", DATABASE_ERROR) carrying the original
exception's type name in its context. -/
theorem handleDatabaseError_classification (msg ty : Str) :
    ((strContains (lower msg) ("duplicate".data) ||
        strContains (lower msg) ("unique constraint".data)) = true →
      handle_database_error msg ty =
        { kind := .conflictError, message := "Resource already exists".data
          status_code := 409, error_code := "DUPLICATE_RESOURCE".data, context := [] }) ∧
    ((strContains (lower msg) ("duplicate".data) ||
        strContains (lower msg) ("unique constraint".data)) = false →
      strContains (lower msg) ("foreign key".data) = true →
      handle_database_error msg ty =
        { kind := .validationError, message := "Referenced resource does not exist".data
          status_code := 422, error_code := "INVALID_REFERENCE".data, context := [] }) ∧
    ((strContains (lower msg) ("duplicate".data) ||
        strContains (lower msg) ("unique constraint".data)) = false →
      strContains (lower msg) ("foreign key".data) = false →
      (strContains (lower msg) ("connection".data) ||
        strContains (lower msg) ("timeout".data)) = true →
      handle_database_error msg ty =
        { kind := .serviceUnavailableError, message := "Database connection error".data
          status_code := 503, error_code := "DATABASE_UNAVAILABLE".data, context := [] }) ∧
    ((strContains (lower msg) ("duplicate".data) ||
        strContains (lower msg) ("unique constraint".data)) = false →
      strContains (lower msg) ("foreign key".data) = false →
      (strContains (lower msg) ("connection".data) ||
        strContains (lower msg) ("timeout".data)) = false →
      handle_database_error msg ty =
        { kind := .internalServerError, message := "Database operation failed".data
          status_code := 500, error_code := "DATABASE_ERROR".data
          context := [("original_error".data, ty)] }) := by
  refine ⟨?_, ?_, ?_, ?_⟩
  · intro h1
    simp [handle_database_error, h1]
  · intro h1 h2
    simp [handle_database_error, h1, h2]
  · intro h1 h2 h3
    simp [handle_database_error, h1, h2, h3]
  · intro h1 h2 h3
    simp [handle_database_error, h1, h2, h3]

/-- Witness for C5 at concrete inputs: an exception whose text mentions a
unique constraint is converted to the DUPLICATE_RESOURCE conflict. -/
theorem handleDatabaseError_classification_witness :
    handle_database_error ("UNIQUE constraint failed: categories.id".data)
      ("IntegrityError".data) =
      { kind := .conflictError, message := "Resource already exists".data
        status_code := 409, error_code := "DUPLICATE_RESOURCE".data, context := [] } :=
  (handleDatabaseError_classification ("UNIQUE constraint failed: categories.id".data)
    ("IntegrityError".data)).1 (by decide)

/-- C6: listing products with both price bounds supplied and min above max
answers 400 with the inverted-range message; with any non-inverted bounds the
route succeeds and every returned product's price lies within the supplied
bounds, inclusively. -/
theorem listProducts_priceRange (ps : List Product) (cat : Option Nat)
    (mn mx : Option Int) (nameF : Option Str) (off lim : Nat) :
    (∀ a b, mn = some a → mx = some b → b < a →
      list_products ps cat mn mx nameF off lim = .error (400, invertedRangeMsg) ∧
      strContains invertedRangeMsg
        ("min_price cannot be greater than max_price".data) = true) ∧
    (invertedRange mn mx = false →
      (∀ e, list_products ps cat mn mx nameF off lim ≠ .error e) ∧
      (∀ resp, list_products ps cat mn mx nameF off lim = .ok resp →
        ∀ p ∈ resp.products,
          (∀ a, mn = some a → a ≤ p.price) ∧ (∀ b, mx = some b → p.price ≤ b))) := by
  constructor
  · intro a b ha hb hlt
    subst ha; subst hb
    refine ⟨?_, by decide⟩
    unfold list_products
    rw [if_pos]
    simp [invertedRange, hlt]
  · intro hinv
    constructor
    · intro e
      unfold list_products
      rw [if_neg (by simp [hinv])]
      simp
    · intro resp hr p hp
      unfold list_products at hr
      rw [if_neg (by simp [hinv])] at hr
      simp only [Except.ok.injEq] at hr
      subst hr
      simp only at hp
      have hp1 := List.mem_of_mem_take hp
      have hp2 := List.mem_of_mem_drop hp1
      have hp3 := (List.mem_insertionSort _).1 hp2
      have hfp := (List.mem_filter.mp hp3).2
      constructor
      · intro a ha
        subst ha
        simp only [ProductRepository.listFilter, Bool.and_eq_true, decide_eq_true_eq] at hfp
        exact hfp.1.1.2
      · intro b hb
        subst hb
        simp only [ProductRepository.listFilter, Bool.and_eq_true, decide_eq_true_eq] at hfp
        exact hfp.1.2

/-- Witness for C6 at concrete inputs: an inverted range of min 50 and max 20
answers 400 with the inverted-range message. -/
theorem listProducts_priceRange_witness :
    list_products [prodW 1 ("A".data) 30 0] none (some 50) (some 20) none 0 50 =
      .error (400, invertedRangeMsg) :=
  ((listProducts_priceRange [prodW 1 ("A".data) 30 0] none (some 50) (some 20)
    none 0 50).1 50 20 rfl rfl (by decide)).1

/-- The lexicographic four-key comparison is total. -/
theorem lex4Ge_total (a b : Nat × Nat × Nat × Nat) :
    ProductRepository.lex4Ge a b = true ∨ ProductRepository.lex4Ge b a = true := by
  simp only [ProductRepository.lex4Ge, Bool.or_eq_true, Bool.and_eq_true,
    decide_eq_true_eq, beq_iff_eq]
  omega

/-- The lexicographic four-key comparison is transitive. -/
theorem lex4Ge_trans (a b c : Nat × Nat × Nat × Nat) :
    ProductRepository.lex4Ge a b = true → ProductRepository.lex4Ge b c = true →
    ProductRepository.lex4Ge a c = true := by
  simp only [ProductRepository.lex4Ge, Bool.or_eq_true, Bool.and_eq_true,
    decide_eq_true_eq, beq_iff_eq]
  omega

/-- C4: product search lower-cases and trims the query into the search term;
every returned product matches the term on name, description or search
vector (and the category filter when given); the returned page is ordered by
the four descending relevance keys — exact name match, name-starts-with,
name-contains, then recency — and it is exactly the offset/limit page of the
full ordered result, which is a permutation of all matching rows. -/
theorem productSearch_spec (ps : List Product) (q : Str) (off lim : Nat) (cat : Option Nat) :
    (∀ p ∈ ProductRepository.search ps q off lim cat,
      ProductRepository.matchesSearch (strip (lower q)) p = true ∧
      ProductRepository.catOk cat p = true) ∧
    List.Pairwise (ProductRepository.searchRel (strip (lower q)))
      (ProductRepository.search ps q off lim cat) ∧
    ProductRepository.search ps q off lim cat =
      ((ProductRepository.search ps q 0 ps.length cat).drop off).take lim ∧
    (ProductRepository.search ps q 0 ps.length cat).Perm
      (ps.filter (fun p => ProductRepository.matchesSearch (strip (lower q)) p &&
        ProductRepository.catOk cat p)) := by
  have hdef : ∀ o l, ProductRepository.search ps q o l cat =
      (((ps.filter (fun p => ProductRepository.matchesSearch (strip (lower q)) p &&
          ProductRepository.catOk cat p)).insertionSort
        (ProductRepository.searchRel (strip (lower q)))).drop o).take l :=
    fun o l => rfl
  have hlen : ((ps.filter (fun p => ProductRepository.matchesSearch (strip (lower q)) p &&
      ProductRepository.catOk cat p)).insertionSort
        (ProductRepository.searchRel (strip (lower q)))).length ≤ ps.length := by
    rw [(List.perm_insertionSort _ _).length_eq]
    exact List.length_filter_le _ _
  refine ⟨?_, ?_, ?_, ?_⟩
  · intro p hp
    rw [hdef] at hp
    have hp3 := (List.mem_insertionSort _).1 (List.mem_of_mem_drop (List.mem_of_mem_take hp))
    have := (List.mem_filter.mp hp3).2
    simpa [Bool.and_eq_true] using this
  · rw [hdef]
    haveI : IsTotal Product (ProductRepository.searchRel (strip (lower q))) :=
      ⟨fun _ _ => lex4Ge_total _ _⟩
    haveI : IsTrans Product (ProductRepository.searchRel (strip (lower q))) :=
      ⟨fun _ _ _ h1 h2 => lex4Ge_trans _ _ _ h1 h2⟩
    exact List.Pairwise.sublist ((List.take_sublist _ _).trans (List.drop_sublist _ _))
      (List.sorted_insertionSort _ _)
  · rw [hdef, hdef, List.drop_zero, List.take_of_length_le hlen]
  · rw [hdef, List.drop_zero, List.take_of_length_le hlen]
    exact List.perm_insertionSort _ _

/-- Witness for C4 at concrete inputs: with query " Test " the term is
"test", and the matching stored product satisfies the match predicate and
the trivial category filter. -/
theorem productSearch_spec_witness :
    ProductRepository.matchesSearch (strip (lower (" Test ".data)))
      (prodW 2 ("Test Product".data) 100 2) = true ∧
    ProductRepository.catOk none (prodW 2 ("Test Product".data) 100 2) = true :=
  (productSearch_spec [prodW 1 ("Widget".data) 50 1, prodW 2 ("Test Product".data) 100 2]
    (" Test ".data) 0 50 none).1 (prodW 2 ("Test Product".data) 100 2) (by decide)

/-- Lower-casing leaves whitespace characters unchanged. -/
theorem toLower_whitespace (c : Char) (h : c.isWhitespace = true) : c.toLower = c := by
  simp only [Char.isWhitespace, Bool.or_eq_true, decide_eq_true_eq] at h
  rcases h with ((h | h) | h) | h <;> (subst h; decide)

/-- Lower-casing then stripping a nonempty all-whitespace query yields the
empty search term. -/
theorem strip_lower_whitespace (q : Str) (h : q.all Char.isWhitespace = true) :
    strip (lower q) = [] := by
  have hl : lower q = q := by
    unfold lower
    induction q with
    | nil => rfl
    | cons c t ih =>
      simp only [List.all_cons, Bool.and_eq_true] at h
      simp [toLower_whitespace c h.1, ih h.2]
  rw [hl]
  unfold strip
  rw [List.dropWhile_eq_nil_iff.mpr (fun x hx => List.all_eq_true.mp h x hx)]
  rfl

/-- Every product matches the empty search term. -/
theorem matchesSearch_nil (p : Product) : ProductRepository.matchesSearch [] p = true := by
  have hinf : ([] : Str) <:+: lower p.name := ⟨[], lower p.name, by simp⟩
  have h1 : ilikeContains p.name [] = true := by
    unfold ilikeContains strContains
    exact decide_eq_true hinf
  unfold ProductRepository.matchesSearch
  simp [h1]

/-- C10: a whitespace-only query (accepted by the search route, which only
requires one character) strips to the empty term, which every product
matches, so `search` returns all products (subject only to the category
filter, the ordering and the offset/limit page) and `search_count` returns
the total number of products. -/
theorem whitespaceSearch_returnsAll (ps : List Product) (q : Str) (cat : Option Nat) :
    q ≠ [] → q.all Char.isWhitespace = true →
    strip (lower q) = [] ∧
    (∀ p : Product, ProductRepository.matchesSearch (strip (lower q)) p = true) ∧
    ProductRepository.search_count ps q none = ps.length ∧
    (ProductRepository.search ps q 0 ps.length none).Perm ps ∧
    ProductRepository.search_count ps q cat =
      (ps.filter (ProductRepository.catOk cat)).length := by
  intro _ hws
  have hterm := strip_lower_whitespace q hws
  have hcdef : ∀ cat0, ProductRepository.search_count ps q cat0 =
      (ps.filter (fun p => ProductRepository.matchesSearch (strip (lower q)) p &&
        ProductRepository.catOk cat0 p)).length := fun _ => rfl
  have hfilter_all : ps.filter (fun p => ProductRepository.matchesSearch [] p &&
      ProductRepository.catOk none p) = ps := by
    apply List.filter_eq_self.mpr
    intro p _
    simp [matchesSearch_nil p, ProductRepository.catOk]
  refine ⟨hterm, ?_, ?_, ?_, ?_⟩
  · intro p
    rw [hterm]
    exact matchesSearch_nil p
  · rw [hcdef none, hterm, hfilter_all]
  · have hdef : ProductRepository.search ps q 0 ps.length none =
        (((ps.filter (fun p => ProductRepository.matchesSearch (strip (lower q)) p &&
            ProductRepository.catOk none p)).insertionSort
          (ProductRepository.searchRel (strip (lower q)))).drop 0).take ps.length := rfl
    rw [hdef, hterm, hfilter_all, List.drop_zero, List.take_of_length_le]
    · exact List.perm_insertionSort _ _
    · rw [(List.perm_insertionSort _ _).length_eq]
  · rw [hcdef cat, hterm]
    congr 1
    apply List.filter_congr
    intro p _
    simp [matchesSearch_nil p]

/-- Witness for C10 at concrete inputs: the three-space query returns both
stored products and counts two. -/
theorem whitespaceSearch_returnsAll_witness :
    ProductRepository.search_count [prodW 1 ("Widget".data) 50 1,
      prodW 2 ("Test Product".data) 100 2] ("   ".data) none = 2 :=
  (whitespaceSearch_returnsAll [prodW 1 ("Widget".data) 50 1,
    prodW 2 ("Test Product".data) 100 2] ("   ".data) none
    (by decide) (by decide)).2.2.1

/-- C8, evaluated against the code: the persisted Product entity has no
`sku` or `is_active` attribute, so building the publish call's arguments
raises `AttributeError` before `publish_product_created` is ever invoked;
the failure is caught and logged and the response is still 201 with the
created product, but no product-created publication takes place at all. -/
theorem createProduct_eventAttributeError (ps : List Product) (newId now : Nat)
    (data : ProductCreate) :
    (ProductRepository.create ps newId now data).1.getattrVal ("sku".data) = none ∧
    (ProductRepository.create ps newId now data).1.getattrVal ("is_active".data) = none ∧
    create_product true ps newId now data =
      { status := 201, store := (ProductRepository.create ps newId now data).2
        publishedCreated := [], eventWarningLogged := true } :=
  ⟨rfl, rfl, rfl⟩

/-- C9 counterexample: on the path "/api/v1/items/123abc" the code's label
replaces the digit run inside the non-numeric final segment, while the
claim's segment-wise normalisation leaves that segment alone. -/
theorem endpointLabel_cex :
    get_endpoint_label ("/api/v1/items/123abc".data) = ("/api/v1/items/{id}abc".data) ∧
    endpointLabelSegmentwise ("/api/v1/items/123abc".data) = ("/api/v1/items/123abc".data) ∧
    get_endpoint_label ("/api/v1/items/123abc".data) ≠
      endpointLabelSegmentwise ("/api/v1/items/123abc".data) := by
  decide

/-- The numeric scanner is insensitive to fuel above the input length. -/
theorem numSubF_congr : ∀ f g s, s.length ≤ f → s.length ≤ g → numSubF f s = numSubF g s := by
  intro f
  induction f with
  | zero =>
    intro g s hf _
    have hs : s = [] := List.eq_nil_of_length_eq_zero (Nat.le_zero.mp hf)
    subst hs
    cases g <;> rfl
  | succ k ih =>
    intro g s hf hg
    cases g with
    | zero =>
      have hs : s = [] := List.eq_nil_of_length_eq_zero (Nat.le_zero.mp hg)
      subst hs
      rfl
    | succ m =>
      cases s with
      | nil => rfl
      | cons c rest =>
        simp only [List.length_cons] at hf hg
        by_cases hc : c = '/'
        · subst hc
          cases rest with
          | nil => rfl
          | cons d rest' =>
            simp only [List.length_cons] at hf hg
            by_cases hd : d.isDigit = true
            · have hdw := (List.dropWhile_sublist (p := Char.isDigit)
                (l := d :: rest')).length_le
              simp only [List.length_cons] at hdw
              have hrec := ih m ((d :: rest').dropWhile Char.isDigit) (by omega) (by omega)
              simp only [numSubF, hd, if_true]
              rw [hrec]
            · have hrec := ih m (d :: rest')
                (by simp only [List.length_cons]; omega)
                (by simp only [List.length_cons]; omega)
              simp only [numSubF, hd, if_true, if_false, Bool.false_eq_true]
              rw [hrec]
        · have hrec := ih m rest (by omega) (by omega)
          simp only [numSubF]
          rw [if_neg hc, if_neg hc, hrec]

/-- Any sufficient fuel computes `numSub`. -/
theorem numSubF_eq_numSub (f : Nat) (s : Str) (h : s.length ≤ f) : numSubF f s = numSub s :=
  numSubF_congr f s.length s h (Nat.le_refl _)

/-- Dropping digits from a digit run followed by a non-digit head leaves
exactly the tail. -/
theorem dropWhile_digit_run (ds rest : Str) (hds : ds.all Char.isDigit = true)
    (hrest : ∀ c, rest.head? = some c → c.isDigit = false) :
    (ds ++ rest).dropWhile Char.isDigit = rest := by
  induction ds with
  | nil =>
    cases rest with
    | nil => rfl
    | cons c t => simp [List.dropWhile_cons, hrest c rfl]
  | cons d ds' ih =>
    simp only [List.all_cons, Bool.and_eq_true] at hds
    simp [List.dropWhile_cons, hds.1, ih hds.2]

/-- The UUID scanner is insensitive to fuel above the input length. -/
theorem uuidSubF_congr : ∀ f g s, s.length ≤ f → s.length ≤ g → uuidSubF f s = uuidSubF g s := by
  intro f
  induction f with
  | zero =>
    intro g s hf _
    have hs : s = [] := List.eq_nil_of_length_eq_zero (Nat.le_zero.mp hf)
    subst hs
    cases g <;> rfl
  | succ k ih =>
    intro g s hf hg
    cases g with
    | zero =>
      have hs : s = [] := List.eq_nil_of_length_eq_zero (Nat.le_zero.mp hg)
      subst hs
      rfl
    | succ m =>
      cases s with
      | nil => rfl
      | cons c rest =>
        simp only [List.length_cons] at hf hg
        by_cases hc : c = '/'
        · subst hc
          cases hm : matchUuidBody rest with
          | some rest' =>
            have hlen32 := matchUuidBody_length rest rest' hm
            have hrec := ih m rest' (by omega) (by omega)
            simp only [uuidSubF, hm, if_true]
            rw [hrec]
          | none =>
            have hrec := ih m rest (by omega) (by omega)
            simp only [uuidSubF, hm, if_true]
            rw [hrec]
        · have hrec := ih m rest (by omega) (by omega)
          simp only [uuidSubF]
          rw [if_neg hc, if_neg hc, hrec]

/-- Any sufficient fuel computes `uuidSub`. -/
theorem uuidSubF_eq_uuidSub (f : Nat) (s : Str) (h : s.length ≤ f) : uuidSubF f s = uuidSub s :=
  uuidSubF_congr f s.length s h (Nat.le_refl _)

/-- Consuming a hex run of the right length from the front of an append. -/
theorem takeHex_append (xs ys : Str) (h : xs.all isHexChar = true) :
    takeHex xs.length (xs ++ ys) = some ys := by
  induction xs with
  | nil => rfl
  | cons c t ih =>
    simp only [List.all_cons, Bool.and_eq_true] at h
    simp [takeHex, h.1, ih h.2]

/-- Variant of `takeHex_append` keyed on the expected count. -/
theorem takeHex_append_count (n : Nat) (xs ys : Str) (h : xs.all isHexChar = true)
    (hn : xs.length = n) : takeHex n (xs ++ ys) = some ys := by
  subst hn
  exact takeHex_append xs ys h

/-- The greedy optional hyphen consumes a present hyphen. -/
theorem dashThenHex_dash (n : Nat) (s : Str) : dashThenHex n ('-' :: s) = takeHex n s := by
  simp [dashThenHex]

/-- The UUID body pattern matches a canonical hyphenated 8-4-4-4-12 hex
shape and consumes exactly those 36 characters. -/
theorem matchUuidBody_canonical (a b c d e rest : Str)
    (ha : a.length = 8) (hb : b.length = 4) (hc : c.length = 4) (hd : d.length = 4)
    (he : e.length = 12) (hx : (a ++ b ++ c ++ d ++ e).all isHexChar = true) :
    matchUuidBody (a ++ '-' :: (b ++ '-' :: (c ++ '-' :: (d ++ '-' :: (e ++ rest))))) =
      some rest := by
  simp only [List.all_append, Bool.and_eq_true] at hx
  obtain ⟨⟨⟨⟨hxa, hxb⟩, hxc⟩, hxd⟩, hxe⟩ := hx
  unfold matchUuidBody
  rw [takeHex_append_count 8 a _ hxa ha]
  simp only [Option.some_bind]
  rw [dashThenHex_dash, takeHex_append_count 4 b _ hxb hb]
  simp only [Option.some_bind]
  rw [dashThenHex_dash, takeHex_append_count 4 c _ hxc hc]
  simp only [Option.some_bind]
  rw [dashThenHex_dash, takeHex_append_count 4 d _ hxd hd]
  simp only [Option.some_bind]
  rw [dashThenHex_dash]
  exact takeHex_append_count 12 e rest hxe he

/-- C9 amended: the label is computed by the UUID pass, then the numeric
pass, then truncation to 100 characters plus an ellipsis when longer than
100.  The numeric pass replaces each maximal slash-preceded digit run with
`/{id}` even when the run is only a prefix of its segment (not only purely
numeric segments), and the UUID pass replaces each slash-preceded canonical
hyphenated UUID shape regardless of what follows it. -/
theorem endpointLabel_amended :
    (∀ path : Str,
      ((numSub (uuidSub path)).length ≤ 100 →
        get_endpoint_label path = numSub (uuidSub path)) ∧
      (100 < (numSub (uuidSub path)).length →
        get_endpoint_label path = (numSub (uuidSub path)).take 100 ++ "...".data)) ∧
    (∀ ds rest : Str, ds ≠ [] → ds.all Char.isDigit = true →
      (∀ c, rest.head? = some c → c.isDigit = false) →
      numSub ('/' :: ds ++ rest) = '/' :: idTok ++ numSub rest) ∧
    (∀ a b c d e rest : Str, a.length = 8 → b.length = 4 → c.length = 4 →
      d.length = 4 → e.length = 12 → (a ++ b ++ c ++ d ++ e).all isHexChar = true →
      uuidSub ('/' :: (a ++ '-' :: (b ++ '-' :: (c ++ '-' :: (d ++ '-' :: (e ++ rest)))))) =
        '/' :: idTok ++ uuidSub rest) := by
  refine ⟨?_, ?_, ?_⟩
  · intro path
    constructor
    · intro h
      unfold get_endpoint_label
      rw [if_neg (by omega)]
    · intro h
      unfold get_endpoint_label
      rw [if_pos (by omega)]
  · intro ds rest hne hds hrest
    cases ds with
    | nil => exact absurd rfl hne
    | cons d ds' =>
      have hd : d.isDigit = true := by
        simp only [List.all_cons, Bool.and_eq_true] at hds
        exact hds.1
      have hdw : (d :: (ds' ++ rest)).dropWhile Char.isDigit = rest := by
        have := dropWhile_digit_run (d :: ds') rest hds hrest
        simpa [List.cons_append] using this
      unfold numSub
      simp only [List.cons_append, List.length_cons]
      simp only [numSubF, hd, if_true]
      rw [hdw]
      rw [numSubF_congr ((ds' ++ rest).length + 1) rest.length rest
        (by simp only [List.length_append]; omega) (Nat.le_refl _)]
      simp [List.cons_append]
  · intro a b c d e rest ha hb hc hd he hx
    have hm := matchUuidBody_canonical a b c d e rest ha hb hc hd he hx
    have hlen := matchUuidBody_length _ _ hm
    unfold uuidSub
    simp only [List.length_cons]
    simp only [uuidSubF, hm, if_true]
    rw [uuidSubF_congr ((a ++ '-' :: (b ++ '-' :: (c ++ '-' :: (d ++ '-' :: (e ++ rest))))).length)
      rest.length rest (by omega) (Nat.le_refl _)]

/-- Witness for the amended C9 at concrete inputs: the digit run "123" in
the segment "123abc" is replaced even though the segment is not purely
numeric. -/
theorem endpointLabel_amended_witness :
    numSub ("/123abc".data) = '/' :: idTok ++ numSub ("abc".data) :=
  endpointLabel_amended.2.1 ("123".data) ("abc".data) (by decide) (by decide)
    (by intro c hco; cases hco; decide)

end Catalog
